import Mathlib

/-!
Verification development for the krakatau-wasm host bridge and HTTP service.

The definitions below are a shallow embedding of src/server.js and src/run.js.
External builtins (the JavaScript JSON codec, TextEncoder/TextDecoder, the
multipart parser and the sandboxed WASM engine itself) are modelled as
oracles: their observable outcomes are inputs to the embedded functions,
while every branch, comparison and call sequence of the hand-written host
code is translated faithfully.
-/

/-- Prefix test on strings, modelling the JavaScript startsWith method. -/
def jsStartsWith (s p : String) : Bool :=
  p.data.isPrefixOf s.data

/-- Suffix test on strings, modelling the JavaScript endsWith method. -/
def jsEndsWith (s suf : String) : Bool :=
  suf.data.isSuffixOf s.data

/-- Split a character list at every occurrence of one separator character;
like the JavaScript split method with a one-character separator, the
result always has at least one (possibly empty) piece. -/
def splitChar (c : Char) : List Char → List (List Char)
  | [] => [[]]
  | ch :: rest =>
    let r := splitChar c rest
    if ch == c then [] :: r
    else
      match r with
      | [] => [[ch]]
      | h :: t => (ch :: h) :: t

/-- String split at a one-character separator, modelling the JavaScript
split method as used at src/server.js lines 261 and 263. -/
def jsSplit (s : String) (c : Char) : List String :=
  (splitChar c s.data).map String.mk

/-- ASCII lowercasing, modelling toLowerCase on the ASCII header names the
configuration uses (src/server.js line 275). -/
def jsToLower (s : String) : String :=
  String.mk (s.data.map (fun ch =>
    if 65 ≤ ch.toNat ∧ ch.toNat ≤ 90 then Char.ofNat (ch.toNat + 32) else ch))

/-- JavaScript truthiness of an optional environment string: undefined and
the empty string are falsy (src/server.js lines 254, 274, 308). -/
def truthy : Option String → Bool
  | none => false
  | some s => s != ""

/-- Lookup of a request header by (lowercased) name, modelling the Node
req.headers object (src/server.js lines 255, 275). Absent key gives none. -/
def headersGet (hdrs : List (String × String)) (k : String) : Option String :=
  (hdrs.find? (fun p => p.1 == k)).map (fun p => p.2)

/-- Value of one base64 alphabet character; characters outside the alphabet
are ignored by the Node base64 decoder (src/server.js line 262). -/
def b64Val (c : Char) : Option Nat :=
  let n := c.toNat
  if 65 ≤ n ∧ n ≤ 90 then some (n - 65)
  else if 97 ≤ n ∧ n ≤ 122 then some (n - 71)
  else if 48 ≤ n ∧ n ≤ 57 then some (n + 4)
  else if n = 43 then some 62
  else if n = 47 then some 63
  else none

/-- Decode a list of base64 sextet values into bytes, 4 sextets to 3 bytes,
with the usual handling of a short final group. -/
def b64Groups : List Nat → List Nat
  | v0 :: v1 :: v2 :: v3 :: rest =>
      (v0 * 4 + v1 / 16) :: ((v1 % 16) * 16 + v2 / 4) :: ((v2 % 4) * 64 + v3)
        :: b64Groups rest
  | [v0, v1, v2] => [v0 * 4 + v1 / 16, (v1 % 16) * 16 + v2 / 4]
  | [v0, v1] => [v0 * 4 + v1 / 16]
  | _ => []

/-- Base64 decoding of a string to bytes, modelling Buffer.from(s, base64)
(src/server.js line 262): non-alphabet characters are skipped. -/
def base64DecodeBytes (s : String) : List Nat :=
  b64Groups (s.toList.filterMap b64Val)

/-- Bytes to string under the Node ascii encoding, which masks each byte to
7 bits (src/server.js line 262, toString ascii). -/
def asciiOfBytes (bs : List Nat) : String :=
  String.mk (bs.map (fun b => Char.ofNat (b % 128)))

/-- Server configuration drawn from environment variables
(src/server.js lines 17-22). Unset variables are none. -/
structure ServerConfig where
  decompileEndpoint : String
  assembleEndpoint : String
  authUser : Option String
  authPassword : Option String
  authTokenHeader : Option String
  authTokenValue : Option String
deriving DecidableEq, Repr

/-- Embeds the basic-auth header check of src/server.js lines 255-270:
the authorization header must exist, start with Basic, and its base64
payload, split at the first colon, must match the configured user and
password. A missing or headerless password part compares unequal. -/
def basicHeaderMatches (cfg : ServerConfig) (hdrs : List (String × String)) : Bool :=
  match headersGet hdrs "authorization" with
  | none => false
  | some ah =>
    if !(jsStartsWith ah "Basic ") then false
    else
      let b64 := ((jsSplit ah ' ').getD 1 "")
      let credentials := asciiOfBytes (base64DecodeBytes b64)
      let parts := jsSplit credentials ':'
      let username := parts.getD 0 ""
      let password := parts[1]?
      if username != cfg.authUser.getD "" then false
      else if password != some (cfg.authPassword.getD "") then false
      else true

/-- Embeds the token header check of src/server.js lines 275-278: the
request header named by the configured token header (lowercased) must
equal the configured token value; an absent header compares unequal. -/
def tokenHeaderMatches (cfg : ServerConfig) (hdrs : List (String × String)) : Bool :=
  headersGet hdrs (jsToLower (cfg.authTokenHeader.getD "")) == cfg.authTokenValue

/-- Embeds KrakatauServer.authenticate (src/server.js lines 252-282).
The basic check runs only when both user and password are truthy; the
token check runs only when both header name and value are truthy; the
early returns of the source make the result the conjunction of the two
guarded checks. -/
def authenticate (cfg : ServerConfig) (hdrs : List (String × String)) : Bool :=
  (if truthy cfg.authUser && truthy cfg.authPassword
    then basicHeaderMatches cfg hdrs else true)
  && (if truthy cfg.authTokenHeader && truthy cfg.authTokenValue
    then tokenHeaderMatches cfg hdrs else true)

/-- Decoded engine response object, the shape produced by JSON.parse of the
engine response bytes (src/server.js lines 166, 171-175). -/
structure RespObj where
  success : Bool
  error : Option String
  output : Option String
deriving DecidableEq, Repr

/-- Oracle giving the outcomes of the external engine exports and of the
JSON decode during one request cycle: results of the two allocator calls,
of the entry-point invocation, of the response length and pointer getters,
and the outcome of JSON.parse on the copied bytes (none means the parse
throws, with parseErrMsg as the thrown message). -/
structure EngineOracle where
  alloc1 : Nat
  alloc2 : Nat
  invokeRet : Int
  respLen : Int
  respPtr : Nat
  parseOutcome : Option RespObj
  parseErrMsg : String
deriving DecidableEq, Repr

/-- The JSON request envelope built for a decompile cycle
(src/server.js lines 117-122); the base64 content field is the external
base64 encoding of the class bytes and is not repeated here. -/
structure DecompileRequestEnvelope where
  file_path : String
  roundtrip : Bool
  no_short_code_attr : Bool
deriving DecidableEq, Repr

/-- The JSON request envelope built for an assemble cycle
(src/server.js lines 189-192); the source text field is the external
UTF-8 decode of the uploaded bytes and is not repeated here. -/
structure AssembleRequestEnvelope where
  file_path : String
deriving DecidableEq, Repr

/-- One observable interaction with the engine during a request cycle. -/
inductive ECall where
  | encodeDecompile (filePath : String) (roundtrip noShortCodeAttr : Bool)
  | encodeAssemble (filePath : String)
  | alloc (size : Nat)
  | writeMem (addr len : Nat)
  | invokeDecompile (addr len : Nat)
  | invokeAssemble (addr len : Nat)
  | getRespLength
  | getRespPtr
  | readMem (addr len : Nat)
  | freeResponse
deriving DecidableEq, Repr

/-- True exactly on allocator calls. -/
def isAllocCall : ECall → Bool
  | .alloc _ => true
  | _ => false

/-- Failure cases of a request cycle, one per throw site of the try block
of KrakatauServer.decompile and KrakatauServer.assemble. -/
inductive CycleError where
  | allocationFailed
  | invokeFailed
  | responseLengthError
  | responsePtrError
  | decodeError (msg : String)
  | engineFailure (msg : String)
deriving DecidableEq, Repr

/-- Error message thrown at each failure site of KrakatauServer.decompile
(src/server.js lines 133, 146, 152, 157). -/
def decompileCycleMsg : CycleError → String
  | .allocationFailed => "Failed to allocate WASM memory for input"
  | .invokeFailed => "WASM decompile_json function returned error"
  | .responseLengthError => "Failed to get response length from WASM"
  | .responsePtrError => "Failed to get response pointer from WASM"
  | .decodeError m => m
  | .engineFailure m => m

/-- Error message thrown at each failure site of KrakatauServer.assemble
(src/server.js lines 203, 216, 222, 227). -/
def assembleCycleMsg : CycleError → String
  | .allocationFailed => "Failed to allocate WASM memory for input"
  | .invokeFailed => "WASM assemble_json function returned error"
  | .responseLengthError => "Failed to get response length from WASM"
  | .responsePtrError => "Failed to get response pointer from WASM"
  | .decodeError m => m
  | .engineFailure m => m

/-- Embeds the body of KrakatauServer.decompile (src/server.js lines
112-179) for an initialized server: encode the request, make a throwaway
allocation of size 10 whose result is discarded, allocate the real input
buffer (zero address fails), copy the input, invoke decompile_json
(negative fails), read the response length (negative fails) and pointer
(zero fails), copy the response bytes out, JSON-parse them (a throw skips
everything after it, including the free_response call), call
free_response, and finally surface an engine-reported failure or return
the output field. Returns the result together with the engine call trace. -/
def decompileCycle (e : DecompileRequestEnvelope) (o : EngineOracle) (n : Nat) :
    Except CycleError (Option String) × List ECall :=
  if o.alloc2 = 0 then
    (.error .allocationFailed,
      [.encodeDecompile e.file_path e.roundtrip e.no_short_code_attr,
       .alloc 10, .alloc n])
  else if o.invokeRet < 0 then
    (.error .invokeFailed,
      [.encodeDecompile e.file_path e.roundtrip e.no_short_code_attr,
       .alloc 10, .alloc n, .writeMem o.alloc2 n, .invokeDecompile o.alloc2 n])
  else if o.respLen < 0 then
    (.error .responseLengthError,
      [.encodeDecompile e.file_path e.roundtrip e.no_short_code_attr,
       .alloc 10, .alloc n, .writeMem o.alloc2 n, .invokeDecompile o.alloc2 n,
       .getRespLength])
  else if o.respPtr = 0 then
    (.error .responsePtrError,
      [.encodeDecompile e.file_path e.roundtrip e.no_short_code_attr,
       .alloc 10, .alloc n, .writeMem o.alloc2 n, .invokeDecompile o.alloc2 n,
       .getRespLength, .getRespPtr])
  else
    match o.parseOutcome with
    | none =>
      (.error (.decodeError o.parseErrMsg),
        [.encodeDecompile e.file_path e.roundtrip e.no_short_code_attr,
         .alloc 10, .alloc n, .writeMem o.alloc2 n, .invokeDecompile o.alloc2 n,
         .getRespLength, .getRespPtr, .readMem o.respPtr o.respLen.toNat])
    | some r =>
      if r.success then
        (.ok r.output,
          [.encodeDecompile e.file_path e.roundtrip e.no_short_code_attr,
           .alloc 10, .alloc n, .writeMem o.alloc2 n, .invokeDecompile o.alloc2 n,
           .getRespLength, .getRespPtr, .readMem o.respPtr o.respLen.toNat,
           .freeResponse])
      else
        (.error (.engineFailure (r.error.getD "Unknown decompilation error")),
          [.encodeDecompile e.file_path e.roundtrip e.no_short_code_attr,
           .alloc 10, .alloc n, .writeMem o.alloc2 n, .invokeDecompile o.alloc2 n,
           .getRespLength, .getRespPtr, .readMem o.respPtr o.respLen.toNat,
           .freeResponse])

/-- Embeds the body of KrakatauServer.assemble (src/server.js lines
187-249), identical in structure to the decompile cycle but invoking
assemble_json and returning the whole decoded response object. -/
def assembleCycle (e : AssembleRequestEnvelope) (o : EngineOracle) (n : Nat) :
    Except CycleError RespObj × List ECall :=
  if o.alloc2 = 0 then
    (.error .allocationFailed,
      [.encodeAssemble e.file_path, .alloc 10, .alloc n])
  else if o.invokeRet < 0 then
    (.error .invokeFailed,
      [.encodeAssemble e.file_path, .alloc 10, .alloc n,
       .writeMem o.alloc2 n, .invokeAssemble o.alloc2 n])
  else if o.respLen < 0 then
    (.error .responseLengthError,
      [.encodeAssemble e.file_path, .alloc 10, .alloc n,
       .writeMem o.alloc2 n, .invokeAssemble o.alloc2 n, .getRespLength])
  else if o.respPtr = 0 then
    (.error .responsePtrError,
      [.encodeAssemble e.file_path, .alloc 10, .alloc n,
       .writeMem o.alloc2 n, .invokeAssemble o.alloc2 n, .getRespLength,
       .getRespPtr])
  else
    match o.parseOutcome with
    | none =>
      (.error (.decodeError o.parseErrMsg),
        [.encodeAssemble e.file_path, .alloc 10, .alloc n,
         .writeMem o.alloc2 n, .invokeAssemble o.alloc2 n, .getRespLength,
         .getRespPtr, .readMem o.respPtr o.respLen.toNat])
    | some r =>
      if r.success then
        (.ok r,
          [.encodeAssemble e.file_path, .alloc 10, .alloc n,
           .writeMem o.alloc2 n, .invokeAssemble o.alloc2 n, .getRespLength,
           .getRespPtr, .readMem o.respPtr o.respLen.toNat, .freeResponse])
      else
        (.error (.engineFailure (r.error.getD "Unknown assembly error")),
          [.encodeAssemble e.file_path, .alloc 10, .alloc n,
           .writeMem o.alloc2 n, .invokeAssemble o.alloc2 n, .getRespLength,
           .getRespPtr, .readMem o.respPtr o.respLen.toNat, .freeResponse])

/-- Message printed on standard error at each failure site of the CLI run
(src/run.js lines 84, 98, 104, 109, 123); the decode and engine-failure
cases carry the message of the throwing site. Every failure exits with
code 1, a success prints the output and exits 0. -/
def runCycleMsg : CycleError → String
  | .allocationFailed => "Failed to allocate memory for input data"
  | .invokeFailed => "WASM decompile_json function returned error"
  | .responseLengthError => "Failed to get response length"
  | .responsePtrError => "Failed to get response pointer"
  | .decodeError m => m
  | .engineFailure m => m

/-- Embeds the engine cycle of the CLI front-end, src/run.js lines 63-134:
same shape as the server decompile cycle with both option flags fixed to
false, but on an engine-reported failure the process exits at line 124
before ever reaching the free_response call at line 128, and a JSON parse
throw likewise reaches the outer catch without calling free_response. On
success (the ok case, printing the output field) free_response is called
after printing. Failure sites are tagged with the same error type as the
server cycles; runCycleMsg gives the message each one prints. -/
def runCycle (filePath : String) (o : EngineOracle) (n : Nat) :
    Except CycleError (Option String) × List ECall :=
  if o.alloc2 = 0 then
    (.error .allocationFailed,
      [.encodeDecompile filePath false false, .alloc 10, .alloc n])
  else if o.invokeRet < 0 then
    (.error .invokeFailed,
      [.encodeDecompile filePath false false, .alloc 10, .alloc n,
       .writeMem o.alloc2 n, .invokeDecompile o.alloc2 n])
  else if o.respLen < 0 then
    (.error .responseLengthError,
      [.encodeDecompile filePath false false, .alloc 10, .alloc n,
       .writeMem o.alloc2 n, .invokeDecompile o.alloc2 n, .getRespLength])
  else if o.respPtr = 0 then
    (.error .responsePtrError,
      [.encodeDecompile filePath false false, .alloc 10, .alloc n,
       .writeMem o.alloc2 n, .invokeDecompile o.alloc2 n, .getRespLength,
       .getRespPtr])
  else
    match o.parseOutcome with
    | none =>
      (.error (.decodeError o.parseErrMsg),
        [.encodeDecompile filePath false false, .alloc 10, .alloc n,
         .writeMem o.alloc2 n, .invokeDecompile o.alloc2 n, .getRespLength,
         .getRespPtr, .readMem o.respPtr o.respLen.toNat])
    | some r =>
      if r.success then
        (.ok r.output,
          [.encodeDecompile filePath false false, .alloc 10, .alloc n,
           .writeMem o.alloc2 n, .invokeDecompile o.alloc2 n, .getRespLength,
           .getRespPtr, .readMem o.respPtr o.respLen.toNat, .freeResponse])
      else
        (.error (.engineFailure (r.error.getD "Unknown decompilation error")),
          [.encodeDecompile filePath false false, .alloc 10, .alloc n,
           .writeMem o.alloc2 n, .invokeDecompile o.alloc2 n, .getRespLength,
           .getRespPtr, .readMem o.respPtr o.respLen.toNat])

/-- The required export list checked at initialization, in source order
(src/server.js lines 79-86). -/
def requiredFunctions : List String :=
  ["allocate_input_buffer", "decompile_json", "assemble_json",
   "get_response_length", "get_response_ptr", "free_response"]

/-- The error message thrown for an absent export (src/server.js line 90). -/
def missingExportMsg (f : String) : String :=
  "Required function " ++ f ++ " not found in WASM module"

/-- The export check loop of src/server.js lines 88-92: walk the required
list in order and fail on the first name absent from the export table. -/
def checkExportsList : List String → List String → Except String Unit
  | [], _ => .ok ()
  | f :: rest, exps =>
    if exps.contains f then checkExportsList rest exps
    else .error (missingExportMsg f)

/-- The export presence check applied to the fixed required list. -/
def checkRequiredExports (exps : List String) : Except String Unit :=
  checkExportsList requiredFunctions exps

/-- Server instance state: the initialized flag and the module, instance
and memory handles (src/server.js lines 11-14), with handles modelled as
opaque identifiers. -/
structure EngineState where
  initialized : Bool
  wasmModule : Option Nat
  wasmInstance : Option Nat
  memory : Option Nat
deriving DecidableEq, Repr

/-- Outcomes of the external steps of initialization: whether the module
file exists on disk, the identifiers of the compiled module and of the
instance that WebAssembly.compile and WebAssembly.instantiate would
produce, the memory export found by the export scan (none if the module
exports no memory), and the export name table. -/
structure InitEnv where
  wasmFileExists : Bool
  moduleId : Nat
  instanceId : Nat
  memoryExport : Option Nat
  exports : List String
deriving DecidableEq, Repr

/-- Side effects of initialization that touch the module. -/
inductive InitEffect where
  | readFile
  | compile
  | instantiate
deriving DecidableEq, Repr

/-- Embeds KrakatauServer.initialize (src/server.js lines 45-100): return
at once when already initialized, otherwise read, compile and instantiate
the module, locate the memory export, check the required exports in order,
and on success record the handles and set the initialized flag. Every
failure message is wrapped by the catch at line 98. Returns the resulting
state (or error) together with the module-touching effects performed. -/
def initEngine (env : InitEnv) (s : EngineState) :
    Except String EngineState × List InitEffect :=
  if s.initialized then (.ok s, [])
  else if !env.wasmFileExists then
    (.error "Failed to initialize Krakatau: WASM file not found", [])
  else
    match env.memoryExport with
    | none =>
      (.error "Failed to initialize Krakatau: WASM module does not export memory",
        [.readFile, .compile, .instantiate])
    | some memId =>
      match checkRequiredExports env.exports with
      | .error m =>
        (.error ("Failed to initialize Krakatau: " ++ m),
          [.readFile, .compile, .instantiate])
      | .ok _ =>
        (.ok { initialized := true, wasmModule := some env.moduleId,
               wasmInstance := some env.instanceId, memory := some memId },
          [.readFile, .compile, .instantiate])

/-- Structured HTTP response body, abstracting the JSON.stringify builtin:
a one-field error object, a two-field error envelope, a serialized engine
response object, a plain-text body (none when res.end gets no data), or
the empty marker used by the no-response placeholder. -/
inductive RespBody where
  | jsonError (error : String)
  | jsonErrorMessage (error message : String)
  | jsonResult (r : RespObj)
  | text (s : Option String)
  | empty
deriving DecidableEq, Repr

/-- An HTTP response as written by res.writeHead and res.end. -/
structure HttpResponse where
  status : Nat
  headers : List (String × String)
  body : RespBody
deriving DecidableEq, Repr

/-- Decidable equality for Except values, needed to evaluate request
records in witnesses. -/
instance exceptDecEq {ε α : Type} [DecidableEq ε] [DecidableEq α] :
    DecidableEq (Except ε α)
  | .error e1, .error e2 =>
    if h : e1 = e2 then isTrue (by rw [h])
    else isFalse (by intro hh; injection hh with h2; exact h h2)
  | .error _, .ok _ => isFalse (by intro hh; exact Except.noConfusion hh)
  | .ok _, .error _ => isFalse (by intro hh; exact Except.noConfusion hh)
  | .ok a1, .ok a2 =>
    if h : a1 = a2 then isTrue (by rw [h])
    else isFalse (by intro hh; injection hh with h2; exact h h2)

/-- An inbound HTTP request after URL parsing: method, path, headers with
lowercased names, query parameters in order, and the outcome of the
multipart upload middleware (error, no file, or one file with its original
name and content bytes). -/
structure HttpRequest where
  method : String
  pathname : String
  headers : List (String × String)
  query : List (String × String)
  uploadResult : Except String (Option (String × List Nat))
deriving DecidableEq, Repr

/-- First value of a query parameter, modelling URLSearchParams.get
(src/server.js lines 387-388); absent gives none. -/
def searchParamsGet (q : List (String × String)) (k : String) : Option String :=
  (q.find? (fun p => p.1 == k)).map (fun p => p.2)

/-- The decompilation option pair parsed from the query string. -/
structure DecompileOptions where
  roundtrip : Bool
  noShortCodeAttr : Bool
deriving DecidableEq, Repr

/-- Embeds the option construction of src/server.js lines 386-389: each
flag is true exactly when the query parameter is the literal string true. -/
def decompileOptionsOf (q : List (String × String)) : DecompileOptions :=
  { roundtrip := searchParamsGet q "roundtrip" == some "true"
    noShortCodeAttr := searchParamsGet q "no_shortcodeattr" == some "true" }

/-- Big-endian 32-bit read at offset 0, modelling Buffer.readUInt32BE
(src/server.js line 379); only evaluated after the length guard. -/
def readUInt32BE (bs : List Nat) : Nat :=
  bs.getD 0 0 * 16777216 + bs.getD 1 0 * 65536 + bs.getD 2 0 * 256 + bs.getD 3 0

/-- The attempted 401 write at src/server.js lines 306-310. The header
object passed to res.writeHead maps WWW-Authenticate to the Basic
challenge when the configured user name is truthy and to the JavaScript
undefined value otherwise; Node validates plain-object header values in
writeHead and throws ERR_HTTP_INVALID_HEADER_VALUE on an undefined value,
so when the user name is falsy the write throws and no response is put on
the wire. The throw site sits before the try block of handleRequest, so
that error is never converted into a 500. -/
def unauthorizedWrite (cfg : ServerConfig) : Except String HttpResponse :=
  if truthy cfg.authUser then
    .ok { status := 401
          headers := [("Content-Type", "application/json"),
                      ("WWW-Authenticate", "Basic realm=\"Krakatau Server\"")]
          body := .jsonError "Authentication required" }
  else
    .error "ERR_HTTP_INVALID_HEADER_VALUE"

/-- Placeholder recording that nothing was written to the socket: no
status line, no headers, no body. Paired with a some-valued uncaught
field in HandleResult when the handler throws outside its try block. The
zero status is not an HTTP status; it marks the absence of a response. -/
def noResponseSent : HttpResponse :=
  { status := 0, headers := [], body := .empty }

/-- Result of handling one request: the HTTP response written to the
socket (or the noResponseSent placeholder), the engine call trace of the
dispatched cycle (empty when the engine was never touched), whether the
request body was read (the upload middleware ran), and the uncaught
exception, some when the handler threw outside its try block so that no
response was sent. -/
structure HandleResult where
  resp : HttpResponse
  calls : List ECall
  bodyRead : Bool
  uncaught : Option String
deriving DecidableEq, Repr

/-- Embeds KrakatauServer.handleRequest (src/server.js lines 284-411) for
an initialized server. In order: the method and path route check (404),
the authentication check before any body is read (401), the upload
middleware (a middleware error reaches the catch as a 500; a missing file
is a 400), then per route: the assemble branch checks the .j extension
(400) and runs the assemble cycle, answering 200 with the serialized
result or 500 with the wrapped cycle error; the decompile branch checks
the .class extension (400) and the CAFEBABE magic of the payload (400),
parses the option flags and runs the decompile cycle, answering 200 with
the output text or 500 with the wrapped cycle error. The engine encoded
length n abstracts the byte length of the externally JSON-encoded request. -/
def handleRequest (cfg : ServerConfig) (o : EngineOracle) (n : Nat)
    (req : HttpRequest) : HandleResult :=
  if req.method ≠ "POST" ∨
      (req.pathname ≠ cfg.decompileEndpoint ∧ req.pathname ≠ cfg.assembleEndpoint) then
    ⟨⟨404, [("Content-Type", "application/json")], .jsonError "Not found"⟩, [], false, none⟩
  else if !(authenticate cfg req.headers) then
    match unauthorizedWrite cfg with
    | .ok r => ⟨r, [], false, none⟩
    | .error e => ⟨noResponseSent, [], false, some e⟩
  else
    match req.uploadResult with
    | .error m =>
      ⟨⟨500, [("Content-Type", "application/json")],
        .jsonErrorMessage "Internal server error" m⟩, [], true, none⟩
    | .ok none =>
      ⟨⟨400, [("Content-Type", "application/json")],
        .jsonError "No file uploaded"⟩, [], true, none⟩
    | .ok (some (origName, payload)) =>
      if req.pathname = cfg.assembleEndpoint then
        let fileName := if origName = "" then "input.j" else origName
        if !(jsEndsWith fileName ".j") then
          ⟨⟨400, [("Content-Type", "application/json")],
            .jsonError "Assembly endpoint expects .j files"⟩, [], true, none⟩
        else
          match assembleCycle ⟨fileName⟩ o n with
          | (.ok r, calls) =>
            ⟨⟨200, [("Content-Type", "application/json"),
                    ("Access-Control-Allow-Origin", "*")], .jsonResult r⟩,
              calls, true, none⟩
          | (.error e, calls) =>
            ⟨⟨500, [("Content-Type", "application/json")],
              .jsonErrorMessage "Internal server error"
                ("Assembly failed: " ++ assembleCycleMsg e)⟩, calls, true, none⟩
      else
        let fileName := if origName = "" then "Unknown.class" else origName
        if !(jsEndsWith fileName ".class") then
          ⟨⟨400, [("Content-Type", "application/json")],
            .jsonError "Decompilation endpoint expects .class files"⟩, [], true, none⟩
        else if payload.length < 4 ∨ readUInt32BE payload ≠ 0xCAFEBABE then
          ⟨⟨400, [("Content-Type", "application/json")],
            .jsonError "Invalid class file format"⟩, [], true, none⟩
        else
          let opts := decompileOptionsOf req.query
          match decompileCycle ⟨fileName, opts.roundtrip, opts.noShortCodeAttr⟩ o n with
          | (.ok out, calls) =>
            ⟨⟨200, [("Content-Type", "text/plain; charset=utf-8"),
                    ("Access-Control-Allow-Origin", "*")], .text out⟩,
              calls, true, none⟩
          | (.error e, calls) =>
            ⟨⟨500, [("Content-Type", "application/json")],
              .jsonErrorMessage "Internal server error"
                ("Decompilation failed: " ++ decompileCycleMsg e)⟩, calls, true, none⟩

/-- A configuration with no authentication and the default endpoints. -/
def fixtureConfig : ServerConfig :=
  ⟨"/decompile", "/assemble", none, none, none, none⟩

/-- Oracle for a fully successful cycle whose decoded response reports
success with output text. -/
def fixtureOracleOk : EngineOracle :=
  ⟨7, 100, 0, 5, 8, some ⟨true, none, some "out"⟩, ""⟩

/-- Oracle for a cycle whose decoded response reports an engine failure. -/
def fixtureOracleEngineFail : EngineOracle :=
  ⟨7, 100, 0, 5, 8, some ⟨false, some "syntax error on line 3", none⟩, ""⟩

/-- Oracle for a cycle whose response bytes do not parse as JSON. -/
def fixtureOracleBadJson : EngineOracle :=
  ⟨7, 100, 0, 5, 8, none, "Unexpected token"⟩

theorem checkExportsList_ok_iff (req exps : List String) :
    checkExportsList req exps = .ok () ↔ ∀ f ∈ req, f ∈ exps := by
  induction req with
  | nil => simp [checkExportsList]
  | cons f rest ih =>
    by_cases h : f ∈ exps
    · simp [checkExportsList, h, ih]
    · simp [checkExportsList, h]

theorem checkExportsList_error (exps : List String) :
    ∀ (pre post : List String) (f : String), (∀ g ∈ pre, g ∈ exps) → f ∉ exps →
    checkExportsList (pre ++ f :: post) exps = .error (missingExportMsg f) := by
  intro pre
  induction pre with
  | nil =>
    intro post f _ hf
    simp [checkExportsList, hf]
  | cons g rest ih =>
    intro post f hpre hf
    have hg : g ∈ exps := hpre g (by simp)
    simp only [List.cons_append, checkExportsList]
    rw [if_pos (by simpa using hg)]
    exact ih post f (fun x hx => hpre x (by simp [hx])) hf

theorem decompileCycle_trace_head (e : DecompileRequestEnvelope) (o : EngineOracle) (n : Nat) :
    (decompileCycle e o n).2.head? =
      some (.encodeDecompile e.file_path e.roundtrip e.no_short_code_attr) := by
  unfold decompileCycle
  repeat' split
  all_goals rfl

/-- C2 counterexample: an assemble request whose engine response decodes to
success false is answered with HTTP 500, not with the claimed 200. -/
theorem C2_counterexample :
    (handleRequest fixtureConfig fixtureOracleEngineFail 42
      ⟨"POST", "/assemble", [], [], .ok (some ("Err.j", []))⟩).resp.status = 500 ∧
    (handleRequest fixtureConfig fixtureOracleEngineFail 42
      ⟨"POST", "/assemble", [], [], .ok (some ("Err.j", []))⟩).resp.status ≠ 200 := by
  decide

/-- C2 amended: for every assemble request that reaches the engine and
receives a decodable JSON response with success false, the assemble cycle
raises an engine failure which handleRequest surfaces as a transport-level
500 with an error and message envelope; a 200 assemble response always
carries a success true object. -/
theorem C2_amended (cfg : ServerConfig) (o : EngineOracle) (n : Nat) (req : HttpRequest)
    (fn : String) (bytes : List Nat) (r : RespObj)
    (hm : req.method = "POST") (hp : req.pathname = cfg.assembleEndpoint)
    (ha : authenticate cfg req.headers = true)
    (hu : req.uploadResult = .ok (some (fn, bytes)))
    (hj : jsEndsWith (if fn = "" then "input.j" else fn) ".j" = true)
    (h2 : ¬ o.alloc2 = 0) (h3 : ¬ o.invokeRet < 0) (h4 : ¬ o.respLen < 0)
    (h5 : ¬ o.respPtr = 0)
    (h6 : o.parseOutcome = some r) (h7 : r.success = false) :
    (handleRequest cfg o n req).resp.status = 500 ∧
    (handleRequest cfg o n req).resp.body =
      .jsonErrorMessage "Internal server error"
        ("Assembly failed: " ++ (r.error.getD "Unknown assembly error")) := by
  have hroute : ¬ (req.method ≠ "POST" ∨
      (req.pathname ≠ cfg.decompileEndpoint ∧ req.pathname ≠ cfg.assembleEndpoint)) := by
    simp [hm, hp]
  have hcy : assembleCycle ⟨if fn = "" then "input.j" else fn⟩ o n =
      (.error (.engineFailure (r.error.getD "Unknown assembly error")),
        [.encodeAssemble (if fn = "" then "input.j" else fn), .alloc 10, .alloc n,
         .writeMem o.alloc2 n, .invokeAssemble o.alloc2 n, .getRespLength,
         .getRespPtr, .readMem o.respPtr o.respLen.toNat, .freeResponse]) := by
    unfold assembleCycle
    rw [if_neg h2, if_neg h3, if_neg h4, if_neg h5, h6]
    simp [h7]
  unfold handleRequest
  simp only [if_neg hroute,
    if_neg (show ¬((!authenticate cfg req.headers) = true) by simp [ha]),
    hu, if_pos hp,
    if_neg (show ¬((!jsEndsWith (if fn = "" then "input.j" else fn) ".j") = true) by
      simp [hj]),
    hcy]
  exact ⟨by simp, by simp [assembleCycleMsg]⟩

/-- C2 witness: the amended statement evaluated at a concrete engine-failure
assemble request. -/
theorem C2_amended_witness :
    (handleRequest fixtureConfig fixtureOracleEngineFail 42
      ⟨"POST", "/assemble", [], [], .ok (some ("Bad.j", []))⟩).resp.status = 500 ∧
    (handleRequest fixtureConfig fixtureOracleEngineFail 42
      ⟨"POST", "/assemble", [], [], .ok (some ("Bad.j", []))⟩).resp.body =
      .jsonErrorMessage "Internal server error"
        ("Assembly failed: " ++
          ((some "syntax error on line 3").getD "Unknown assembly error")) :=
  C2_amended fixtureConfig fixtureOracleEngineFail 42
    ⟨"POST", "/assemble", [], [], .ok (some ("Bad.j", []))⟩ "Bad.j" []
    ⟨false, some "syntax error on line 3", none⟩
    rfl rfl (by decide) rfl (by decide) (by decide) (by decide) (by decide)
    (by decide) rfl rfl

/-- C3: the claim that free_response is called exactly once unconditionally
after the response copy is contradicted by the code. In the server
decompile cycle, response bytes that fail to parse as JSON leave
free_response uncalled, because the free call sits after JSON.parse; in the
CLI run cycle, an engine response with success false exits the process
before the free call. Both failing traces contain the response copy but no
free_response call. -/
theorem C3_free_response_skipped :
    (ECall.readMem 8 5 ∈ (decompileCycle ⟨"A.class", false, false⟩ fixtureOracleBadJson 20).2 ∧
     ECall.freeResponse ∉ (decompileCycle ⟨"A.class", false, false⟩ fixtureOracleBadJson 20).2) ∧
    (ECall.readMem 8 5 ∈ (runCycle "A.class" fixtureOracleEngineFail 20).2 ∧
     ECall.freeResponse ∉ (runCycle "A.class" fixtureOracleEngineFail 20).2) := by
  decide

/-- C4 counterexample: a module exporting the allocator, the decompile
entry point, the response length getter, the response pointer getter and
the response free function but omitting assemble_json does not initialize
successfully; initialization fails naming assemble_json. -/
theorem C4_counterexample :
    initEngine ⟨true, 1, 2, some 3,
      ["allocate_input_buffer", "decompile_json", "get_response_length",
       "get_response_ptr", "free_response"]⟩ ⟨false, none, none, none⟩ =
    (.error ("Failed to initialize Krakatau: " ++ missingExportMsg "assemble_json"),
      [.readFile, .compile, .instantiate]) := by
  decide

/-- C4 amended: initialization checks the fixed six-entry required export
list, assemble_json included (it is not optional), failing with an error
naming the first absent export in list order, and succeeds exactly when
every required export is present. -/
theorem C4_amended (exps pre post : List String) (f : String)
    (hsplit : requiredFunctions = pre ++ f :: post)
    (hpre : ∀ g ∈ pre, g ∈ exps) (hf : f ∉ exps) :
    checkRequiredExports exps = .error (missingExportMsg f) ∧
    (checkRequiredExports exps = .ok () ↔ ∀ g ∈ requiredFunctions, g ∈ exps) := by
  constructor
  · unfold checkRequiredExports
    rw [hsplit]
    exact checkExportsList_error exps pre post f hpre hf
  · exact checkExportsList_ok_iff requiredFunctions exps

/-- C4 witness: the amended statement evaluated at the export table that
omits assemble_json, where the first absent export in list order is
assemble_json itself. -/
theorem C4_amended_witness :
    checkRequiredExports
      ["allocate_input_buffer", "decompile_json", "get_response_length",
       "get_response_ptr", "free_response"] =
      .error (missingExportMsg "assemble_json") ∧
    (checkRequiredExports
      ["allocate_input_buffer", "decompile_json", "get_response_length",
       "get_response_ptr", "free_response"] = .ok () ↔
      ∀ g ∈ requiredFunctions,
        g ∈ ["allocate_input_buffer", "decompile_json", "get_response_length",
             "get_response_ptr", "free_response"]) :=
  C4_amended
    ["allocate_input_buffer", "decompile_json", "get_response_length",
     "get_response_ptr", "free_response"]
    ["allocate_input_buffer", "decompile_json"]
    ["get_response_length", "get_response_ptr", "free_response"] "assemble_json"
    (by decide) (by decide) (by decide)

/-- C5: a decompile request whose extracted payload is shorter than 4 bytes
or whose first four big-endian bytes are not CAFEBABE is answered 400 with
a JSON error body and the decompile cycle is never entered: the engine
call trace is empty. -/
theorem C5_bad_magic_rejected (cfg : ServerConfig) (o : EngineOracle) (n : Nat)
    (req : HttpRequest) (fn : String) (payload : List Nat)
    (hm : req.method = "POST") (hp : req.pathname = cfg.decompileEndpoint)
    (hpa : req.pathname ≠ cfg.assembleEndpoint)
    (ha : authenticate cfg req.headers = true)
    (hu : req.uploadResult = .ok (some (fn, payload)))
    (hmagic : payload.length < 4 ∨ readUInt32BE payload ≠ 0xCAFEBABE) :
    (handleRequest cfg o n req).resp.status = 400 ∧
    (∃ m, (handleRequest cfg o n req).resp.body = RespBody.jsonError m) ∧
    (handleRequest cfg o n req).calls = [] := by
  have hroute : ¬ (req.method ≠ "POST" ∨
      (req.pathname ≠ cfg.decompileEndpoint ∧ req.pathname ≠ cfg.assembleEndpoint)) := by
    simp [hm, hp]
  unfold handleRequest
  simp only [if_neg hroute,
    if_neg (show ¬((!authenticate cfg req.headers) = true) by simp [ha]),
    hu, if_neg hpa]
  by_cases hext : jsEndsWith (if fn = "" then "Unknown.class" else fn) ".class" = true
  · simp only [if_neg
      (show ¬((!jsEndsWith (if fn = "" then "Unknown.class" else fn) ".class") = true) by
        simp [hext]),
      if_pos hmagic]
    exact ⟨by trivial, ⟨_, by trivial⟩, by trivial⟩
  · simp only [if_pos
      (show ((!jsEndsWith (if fn = "" then "Unknown.class" else fn) ".class") = true) by
        simp [hext])]
    exact ⟨by trivial, ⟨_, by trivial⟩, by trivial⟩

/-- C5 witness: a payload with wrong magic bytes evaluated concretely. -/
theorem C5_bad_magic_rejected_witness :
    (handleRequest fixtureConfig fixtureOracleOk 42
      ⟨"POST", "/decompile", [], [], .ok (some ("A.class", [1, 2, 3, 4]))⟩).resp.status = 400 ∧
    (∃ m, (handleRequest fixtureConfig fixtureOracleOk 42
      ⟨"POST", "/decompile", [], [], .ok (some ("A.class", [1, 2, 3, 4]))⟩).resp.body =
        RespBody.jsonError m) ∧
    (handleRequest fixtureConfig fixtureOracleOk 42
      ⟨"POST", "/decompile", [], [], .ok (some ("A.class", [1, 2, 3, 4]))⟩).calls = [] :=
  C5_bad_magic_rejected fixtureConfig fixtureOracleOk 42
    ⟨"POST", "/decompile", [], [], .ok (some ("A.class", [1, 2, 3, 4]))⟩ "A.class"
    [1, 2, 3, 4] rfl rfl (by decide) (by decide) rfl (by decide)

/-- C6: every request cycle, the server decompile and assemble cycles and
the CLI run cycle alike, performs exactly two allocator calls, the first
with the throwaway size 10 and the second with the real encoded length,
and the cycle fails with the allocation error exactly when the second
allocation returns address zero. -/
theorem C6_allocation_protocol (e : DecompileRequestEnvelope)
    (a : AssembleRequestEnvelope) (fp : String) (o : EngineOracle) (n : Nat) :
    ((decompileCycle e o n).2.filter isAllocCall = [.alloc 10, .alloc n] ∧
      ((decompileCycle e o n).1 = .error .allocationFailed ↔ o.alloc2 = 0)) ∧
    ((assembleCycle a o n).2.filter isAllocCall = [.alloc 10, .alloc n] ∧
      ((assembleCycle a o n).1 = .error .allocationFailed ↔ o.alloc2 = 0)) ∧
    ((runCycle fp o n).2.filter isAllocCall = [.alloc 10, .alloc n] ∧
      ((runCycle fp o n).1 = .error .allocationFailed ↔ o.alloc2 = 0)) := by
  refine ⟨?_, ?_, ?_⟩
  · unfold decompileCycle
    repeat' split
    all_goals simp_all [isAllocCall]
  · unfold assembleCycle
    repeat' split
    all_goals simp_all [isAllocCall]
  · unfold runCycle
    repeat' split
    all_goals simp_all [isAllocCall]

/-- C7 counterexample: with only token authentication configured (the
basic user name unset), a failing request is not answered 401: the 401
write throws ERR_HTTP_INVALID_HEADER_VALUE on the undefined
WWW-Authenticate value outside the try, so no response is sent. -/
theorem C7_counterexample :
    authenticate ⟨"/decompile", "/assemble", none, none, some "X-Token", some "sec"⟩ [] = false ∧
    (handleRequest ⟨"/decompile", "/assemble", none, none, some "X-Token", some "sec"⟩
      fixtureOracleOk 42 ⟨"POST", "/decompile", [], [], .ok none⟩).resp.status ≠ 401 ∧
    (handleRequest ⟨"/decompile", "/assemble", none, none, some "X-Token", some "sec"⟩
      fixtureOracleOk 42 ⟨"POST", "/decompile", [], [], .ok none⟩).uncaught =
      some "ERR_HTTP_INVALID_HEADER_VALUE" := by
  decide

/-- C7 amended: authentication passes exactly when the basic check passes
whenever both user and password are configured and the token check passes
whenever both token header and value are configured; a failure is
detected before the request body is read and with no engine call, and
then: when the basic user name is configured the response is 401 with the
WWW-Authenticate Basic challenge, but when it is not configured the 401
write throws ERR_HTTP_INVALID_HEADER_VALUE on the undefined header value
outside the try and no response is sent. -/
theorem C7_amended (cfg : ServerConfig) (o : EngineOracle) (n : Nat)
    (req : HttpRequest)
    (hm : req.method = "POST")
    (hp : req.pathname = cfg.decompileEndpoint ∨ req.pathname = cfg.assembleEndpoint) :
    (authenticate cfg req.headers = true ↔
      ((truthy cfg.authUser && truthy cfg.authPassword) = true →
        basicHeaderMatches cfg req.headers = true) ∧
      ((truthy cfg.authTokenHeader && truthy cfg.authTokenValue) = true →
        tokenHeaderMatches cfg req.headers = true)) ∧
    (authenticate cfg req.headers = false →
      (handleRequest cfg o n req).bodyRead = false ∧
      (handleRequest cfg o n req).calls = [] ∧
      (truthy cfg.authUser = true →
        (handleRequest cfg o n req).resp.status = 401 ∧
        ("WWW-Authenticate", "Basic realm=\"Krakatau Server\"") ∈
          (handleRequest cfg o n req).resp.headers ∧
        (handleRequest cfg o n req).uncaught = none) ∧
      (truthy cfg.authUser = false →
        (handleRequest cfg o n req).resp = noResponseSent ∧
        (handleRequest cfg o n req).uncaught = some "ERR_HTTP_INVALID_HEADER_VALUE")) := by
  have hroute : ¬ (req.method ≠ "POST" ∨
      (req.pathname ≠ cfg.decompileEndpoint ∧ req.pathname ≠ cfg.assembleEndpoint)) := by
    rcases hp with h | h <;> simp [hm, h]
  constructor
  · unfold authenticate
    cases hB : (truthy cfg.authUser && truthy cfg.authPassword) <;>
      cases hT : (truthy cfg.authTokenHeader && truthy cfg.authTokenValue) <;> simp
  · intro hf
    unfold handleRequest
    simp only [if_neg hroute,
      if_pos (show ((!authenticate cfg req.headers) = true) by simp [hf])]
    cases hU : truthy cfg.authUser
    · simp [unauthorizedWrite, hU]
    · simp [unauthorizedWrite, hU]

/-- C7 witness: the amended statement evaluated at a basic-auth
configuration with no credentials supplied. -/
theorem C7_amended_witness :
    (authenticate ⟨"/decompile", "/assemble", some "user", some "pw", none, none⟩ [] = true ↔
      ((truthy (some "user") && truthy (some "pw")) = true →
        basicHeaderMatches ⟨"/decompile", "/assemble", some "user", some "pw", none, none⟩ [] = true) ∧
      ((truthy (none : Option String) && truthy (none : Option String)) = true →
        tokenHeaderMatches ⟨"/decompile", "/assemble", some "user", some "pw", none, none⟩ [] = true)) ∧
    (authenticate ⟨"/decompile", "/assemble", some "user", some "pw", none, none⟩ [] = false →
      (handleRequest ⟨"/decompile", "/assemble", some "user", some "pw", none, none⟩
        fixtureOracleOk 42 ⟨"POST", "/decompile", [], [], .ok none⟩).bodyRead = false ∧
      (handleRequest ⟨"/decompile", "/assemble", some "user", some "pw", none, none⟩
        fixtureOracleOk 42 ⟨"POST", "/decompile", [], [], .ok none⟩).calls = [] ∧
      (truthy (some "user") = true →
        (handleRequest ⟨"/decompile", "/assemble", some "user", some "pw", none, none⟩
          fixtureOracleOk 42 ⟨"POST", "/decompile", [], [], .ok none⟩).resp.status = 401 ∧
        ("WWW-Authenticate", "Basic realm=\"Krakatau Server\"") ∈
          (handleRequest ⟨"/decompile", "/assemble", some "user", some "pw", none, none⟩
            fixtureOracleOk 42 ⟨"POST", "/decompile", [], [], .ok none⟩).resp.headers ∧
        (handleRequest ⟨"/decompile", "/assemble", some "user", some "pw", none, none⟩
          fixtureOracleOk 42 ⟨"POST", "/decompile", [], [], .ok none⟩).uncaught = none) ∧
      (truthy (some "user") = false →
        (handleRequest ⟨"/decompile", "/assemble", some "user", some "pw", none, none⟩
          fixtureOracleOk 42 ⟨"POST", "/decompile", [], [], .ok none⟩).resp = noResponseSent ∧
        (handleRequest ⟨"/decompile", "/assemble", some "user", some "pw", none, none⟩
          fixtureOracleOk 42 ⟨"POST", "/decompile", [], [], .ok none⟩).uncaught =
          some "ERR_HTTP_INVALID_HEADER_VALUE")) :=
  C7_amended ⟨"/decompile", "/assemble", some "user", some "pw", none, none⟩
    fixtureOracleOk 42 ⟨"POST", "/decompile", [], [], .ok none⟩ rfl (Or.inl rfl)

/-- C8: the option flags dispatched to the engine for a decompile request
are parsed from the literal string true only: the roundtrip flag is true
exactly when the roundtrip query parameter equals the string true, the
no-short-code-attribute flag exactly when the no_shortcodeattr parameter
equals the string true, and the request envelope encoded at the head of
the engine call trace carries exactly these flags. -/
theorem C8_option_parsing (cfg : ServerConfig) (o : EngineOracle) (n : Nat)
    (req : HttpRequest) (fn : String) (payload : List Nat)
    (hm : req.method = "POST") (hp : req.pathname = cfg.decompileEndpoint)
    (hpa : req.pathname ≠ cfg.assembleEndpoint)
    (ha : authenticate cfg req.headers = true)
    (hu : req.uploadResult = .ok (some (fn, payload)))
    (hext : jsEndsWith (if fn = "" then "Unknown.class" else fn) ".class" = true)
    (hlen : ¬ payload.length < 4) (hmag : readUInt32BE payload = 0xCAFEBABE) :
    ((decompileOptionsOf req.query).roundtrip = true ↔
      searchParamsGet req.query "roundtrip" = some "true") ∧
    ((decompileOptionsOf req.query).noShortCodeAttr = true ↔
      searchParamsGet req.query "no_shortcodeattr" = some "true") ∧
    (handleRequest cfg o n req).calls.head? =
      some (ECall.encodeDecompile (if fn = "" then "Unknown.class" else fn)
        (decompileOptionsOf req.query).roundtrip
        (decompileOptionsOf req.query).noShortCodeAttr) := by
  have hroute : ¬ (req.method ≠ "POST" ∨
      (req.pathname ≠ cfg.decompileEndpoint ∧ req.pathname ≠ cfg.assembleEndpoint)) := by
    simp [hm, hp]
  refine ⟨by simp [decompileOptionsOf], by simp [decompileOptionsOf], ?_⟩
  unfold handleRequest
  simp only [if_neg hroute,
    if_neg (show ¬((!authenticate cfg req.headers) = true) by simp [ha]),
    hu, if_neg hpa,
    if_neg (show ¬((!jsEndsWith (if fn = "" then "Unknown.class" else fn) ".class") = true) by
      simp [hext]),
    if_neg (show ¬(payload.length < 4 ∨ readUInt32BE payload ≠ 0xCAFEBABE) by
      simp [hlen, hmag])]
  have hh := decompileCycle_trace_head
    ⟨if fn = "" then "Unknown.class" else fn, (decompileOptionsOf req.query).roundtrip,
      (decompileOptionsOf req.query).noShortCodeAttr⟩ o n
  rcases hc : decompileCycle
    ⟨if fn = "" then "Unknown.class" else fn, (decompileOptionsOf req.query).roundtrip,
      (decompileOptionsOf req.query).noShortCodeAttr⟩ o n with ⟨res, calls⟩
  rw [hc] at hh
  cases res <;> simpa [hc] using hh

/-- C8 witness: a decompile request with roundtrip set to true and
no_shortcodeattr set to a non-true value, evaluated concretely. -/
theorem C8_option_parsing_witness :
    ((decompileOptionsOf [("roundtrip", "true"), ("no_shortcodeattr", "x")]).roundtrip = true ↔
      searchParamsGet [("roundtrip", "true"), ("no_shortcodeattr", "x")] "roundtrip" =
        some "true") ∧
    ((decompileOptionsOf [("roundtrip", "true"), ("no_shortcodeattr", "x")]).noShortCodeAttr = true ↔
      searchParamsGet [("roundtrip", "true"), ("no_shortcodeattr", "x")] "no_shortcodeattr" =
        some "true") ∧
    (handleRequest fixtureConfig fixtureOracleOk 42
      ⟨"POST", "/decompile", [], [("roundtrip", "true"), ("no_shortcodeattr", "x")],
        .ok (some ("A.class", [202, 254, 186, 190, 0, 0]))⟩).calls.head? =
      some (ECall.encodeDecompile (if "A.class" = "" then "Unknown.class" else "A.class")
        (decompileOptionsOf [("roundtrip", "true"), ("no_shortcodeattr", "x")]).roundtrip
        (decompileOptionsOf [("roundtrip", "true"), ("no_shortcodeattr", "x")]).noShortCodeAttr) :=
  C8_option_parsing fixtureConfig fixtureOracleOk 42
    ⟨"POST", "/decompile", [], [("roundtrip", "true"), ("no_shortcodeattr", "x")],
      .ok (some ("A.class", [202, 254, 186, 190, 0, 0]))⟩ "A.class"
    [202, 254, 186, 190, 0, 0] rfl rfl (by decide) (by decide) rfl (by decide)
    (by decide) (by decide)

/-- C9: initialization is idempotent. After any call that returns success,
every later call, under any environment, returns the same state at once
with no file read, no compilation and no instantiation, so the module,
instance and memory handles recorded at the first success are never
replaced. -/
theorem C9_init_idempotent (env1 env2 : InitEnv) (s s2 : EngineState)
    (effs : List InitEffect)
    (h : initEngine env1 s = (.ok s2, effs)) :
    initEngine env2 s2 = (.ok s2, []) := by
  have h2 : s2.initialized = true := by
    unfold initEngine at h
    split at h
    · simp only [Prod.mk.injEq, Except.ok.injEq] at h
      obtain ⟨rfl, -⟩ := h
      assumption
    · split at h
      · simp at h
      · split at h
        · simp at h
        · split at h
          · simp at h
          · simp only [Prod.mk.injEq, Except.ok.injEq] at h
            obtain ⟨h1, -⟩ := h
            rw [← h1]
  unfold initEngine
  rw [if_pos h2]

/-- C9 witness: a first successful initialization followed by a second call
that performs no effect, evaluated concretely. -/
theorem C9_init_idempotent_witness :
    initEngine ⟨true, 1, 2, some 3, requiredFunctions⟩ ⟨true, some 1, some 2, some 3⟩ =
      (.ok ⟨true, some 1, some 2, some 3⟩, []) :=
  C9_init_idempotent ⟨true, 1, 2, some 3, requiredFunctions⟩
    ⟨true, 1, 2, some 3, requiredFunctions⟩ ⟨false, none, none, none⟩
    ⟨true, some 1, some 2, some 3⟩ [.readFile, .compile, .instantiate] (by decide)

/-- C10: when exactly one of the basic-auth user and password is configured
and token auth is not configured, authenticate accepts every request
whatever its headers, even though whenever the user name alone is
configured the 401 write still succeeds and advertises the
WWW-Authenticate Basic challenge. -/
theorem C10_partial_basic_auth (cfg : ServerConfig) (hdrs : List (String × String))
    (htok : (truthy cfg.authTokenHeader && truthy cfg.authTokenValue) = false)
    (hone : (truthy cfg.authUser = true ∧ truthy cfg.authPassword = false) ∨
            (truthy cfg.authUser = false ∧ truthy cfg.authPassword = true)) :
    authenticate cfg hdrs = true ∧
    (truthy cfg.authUser = true →
      unauthorizedWrite cfg =
        .ok { status := 401
              headers := [("Content-Type", "application/json"),
                          ("WWW-Authenticate", "Basic realm=\"Krakatau Server\"")]
              body := .jsonError "Authentication required" }) := by
  constructor
  · unfold authenticate
    rcases hone with ⟨h1, hpw⟩ | ⟨h1, hpw⟩ <;> simp [h1, hpw, htok]
  · intro hU
    unfold unauthorizedWrite
    rw [if_pos hU]

/-- C10 witness: a configuration with only the user name set, evaluated at
a request with no headers. -/
theorem C10_partial_basic_auth_witness :
    authenticate ⟨"/decompile", "/assemble", some "user", none, none, none⟩ [] = true ∧
    (truthy (some "user") = true →
      unauthorizedWrite ⟨"/decompile", "/assemble", some "user", none, none, none⟩ =
        .ok { status := 401
              headers := [("Content-Type", "application/json"),
                          ("WWW-Authenticate", "Basic realm=\"Krakatau Server\"")]
              body := .jsonError "Authentication required" }) :=
  C10_partial_basic_auth ⟨"/decompile", "/assemble", some "user", none, none, none⟩ []
    (by decide) (Or.inl (by decide))
